import Mathlib

/-!
Verification development for the polyglot-pal chat backend and client.

The definitions below are shallow embeddings of the JavaScript/TypeScript
sources of the repository:
  * the turn codec `parseGeminiJson` (src/api/index.js, src/server.js),
    together with an executable model of the ECMAScript built-in
    `JSON.parse` restricted to validity and structure;
  * the session stores and the two chat request handlers of
    src/api/index.js (the guest/users variant and the stateful variant),
    and the `/api/chat/start` handler of src/server.js;
  * the retry wrapper `retryOperation` of src/services/mockData.ts;
  * the client fetch-timeout wrappers of src/services/geminiService.ts;
  * the audio playback decode branch of src/components/ChatBubble.tsx.

The external vendor call (Gemini) is a parameter of each handler: its
outcome is an `Except String String` argument (error message or raw text),
matching the treatment of the generation capability as a black box.
Real-time behaviour (timers) is modelled by the observable outcome of the
wrapped call.
-/

/-! ## A model of JSON syntax and of JSON.parse

`JsonValue` is the parse result; numbers and string bodies are kept as
their literal text (their numeric/unescaped value is never inspected by
the code under verification, only syntactic validity matters). -/

inductive JsonValue : Type where
  | jnull : JsonValue
  | jbool : Bool → JsonValue
  | jnum : String → JsonValue
  | jstr : String → JsonValue
  | jarr : List JsonValue → JsonValue
  | jobj : List (String × JsonValue) → JsonValue

/-- JSON whitespace (the four characters JSON.parse skips between tokens). -/
def isJsonWs (c : Char) : Bool :=
  c = ' ' || c = '\t' || c = '\n' || c = '\r'

def skipWs : List Char → List Char
  | [] => []
  | c :: cs => if isJsonWs c then skipWs cs else c :: cs

def isDecDigit (c : Char) : Bool := '0' ≤ c && c ≤ '9'

def isHexDigit (c : Char) : Bool :=
  isDecDigit c || ('a' ≤ c && c ≤ 'f') || ('A' ≤ c && c ≤ 'F')

/-- The opening brace character (0x7b). -/
def lbrace : Char := Char.ofNat 123

/-- The closing brace character (0x7d). -/
def rbrace : Char := Char.ofNat 125

/-- Body of a JSON string after the opening quote: validates escapes and
control characters, returns the raw body and the rest after the closing
quote. -/
def parseStringBody : List Char → Option (List Char × List Char)
  | [] => none
  | c :: cs =>
    if c = '"' then some ([], cs)
    else if c = '\\' then
      match cs with
      | [] => none
      | e :: cs2 =>
        if e = '"' || e = '\\' || e = '/' || e = 'b' || e = 'f' ||
           e = 'n' || e = 'r' || e = 't' then
          match parseStringBody cs2 with
          | some (b, r) => some (c :: e :: b, r)
          | none => none
        else if e = 'u' then
          match cs2 with
          | h1 :: h2 :: h3 :: h4 :: cs3 =>
            if isHexDigit h1 && isHexDigit h2 && isHexDigit h3 && isHexDigit h4 then
              match parseStringBody cs3 with
              | some (b, r) => some (c :: e :: h1 :: h2 :: h3 :: h4 :: b, r)
              | none => none
            else none
          | _ => none
        else none
    else if c.toNat < 32 then none
    else
      match parseStringBody cs with
      | some (b, r) => some (c :: b, r)
      | none => none

/-- Integer part of a JSON number: `0`, or a nonzero digit followed by
digits (leading zeros are invalid JSON). -/
def parseIntPart : List Char → Option (List Char × List Char)
  | [] => none
  | c :: cs =>
    if c = '0' then some ([c], cs)
    else if isDecDigit c then
      let (ds, r) := cs.span isDecDigit
      some (c :: ds, r)
    else none

/-- Optional fraction part `.digits`. -/
def parseFracPart : List Char → Option (List Char × List Char)
  | [] => some ([], [])
  | c :: cs =>
    if c = '.' then
      match cs.span isDecDigit with
      | ([], _) => none
      | (ds, r) => some (c :: ds, r)
    else some ([], c :: cs)

/-- Optional exponent part `(e|E)(+|-)?digits`. -/
def parseExpPart : List Char → Option (List Char × List Char)
  | [] => some ([], [])
  | c :: cs =>
    if c = 'e' || c = 'E' then
      let (sgn, cs2) :=
        match cs with
        | s :: t => if s = '+' || s = '-' then ([s], t) else (([] : List Char), s :: t)
        | [] => ([], [])
      match cs2.span isDecDigit with
      | ([], _) => none
      | (ds, r) => some (c :: (sgn ++ ds), r)
    else some ([], c :: cs)

/-- A JSON number literal. -/
def parseNumberLit (cs : List Char) : Option (List Char × List Char) :=
  let (negPart, cs1) :=
    match cs with
    | c :: t => if c = '-' then ([c], t) else (([] : List Char), c :: t)
    | [] => ([], [])
  match parseIntPart cs1 with
  | none => none
  | some (ip, cs2) =>
    match parseFracPart cs2 with
    | none => none
    | some (fp, cs3) =>
      match parseExpPart cs3 with
      | none => none
      | some (ep, cs4) => some (negPart ++ ip ++ fp ++ ep, cs4)

mutual

/-- Recursive-descent JSON value parser; the fuel argument bounds nesting
(each unit of fuel consumes at least one input character, so
`length + 1` fuel at top level is always enough). -/
def parseValue : Nat → List Char → Option (JsonValue × List Char)
  | 0, _ => none
  | Nat.succ fuel, cs =>
    match skipWs cs with
    | [] => none
    | c :: rest =>
      if c = lbrace then
        match skipWs rest with
        | c2 :: r2 =>
          if c2 = rbrace then some (.jobj [], r2)
          else
            match parseMembers fuel rest with
            | some (fields, r3) => some (.jobj fields, r3)
            | none => none
        | [] => none
      else if c = '[' then
        match skipWs rest with
        | ']' :: r2 => some (.jarr [], r2)
        | _ =>
          match parseElements fuel rest with
          | some (elems, r3) => some (.jarr elems, r3)
          | none => none
      else if c = '"' then
        match parseStringBody rest with
        | some (body, r2) => some (.jstr (String.mk body), r2)
        | none => none
      else
        match c :: rest with
        | 't' :: 'r' :: 'u' :: 'e' :: r2 => some (.jbool true, r2)
        | 'f' :: 'a' :: 'l' :: 's' :: 'e' :: r2 => some (.jbool false, r2)
        | 'n' :: 'u' :: 'l' :: 'l' :: r2 => some (.jnull, r2)
        | cs2 =>
          match parseNumberLit cs2 with
          | some (lit, r2) => some (.jnum (String.mk lit), r2)
          | none => none

/-- One or more `"key": value` members followed by the closing brace. -/
def parseMembers : Nat → List Char → Option (List (String × JsonValue) × List Char)
  | 0, _ => none
  | Nat.succ fuel, cs =>
    match skipWs cs with
    | '"' :: rest =>
      match parseStringBody rest with
      | some (key, r2) =>
        (match skipWs r2 with
         | ':' :: r3 =>
           match parseValue fuel r3 with
           | some (v, r4) =>
             (match skipWs r4 with
              | ',' :: r5 =>
                (match parseMembers fuel r5 with
                 | some (fields, r6) => some ((String.mk key, v) :: fields, r6)
                 | none => none)
              | c6 :: r5 =>
                if c6 = rbrace then some ([(String.mk key, v)], r5) else none
              | [] => none)
           | none => none
         | _ => none)
      | none => none
    | _ => none

/-- One or more array elements followed by the closing bracket. -/
def parseElements : Nat → List Char → Option (List JsonValue × List Char)
  | 0, _ => none
  | Nat.succ fuel, cs =>
    match parseValue fuel cs with
    | some (v, r) =>
      (match skipWs r with
       | ',' :: r2 =>
         (match parseElements fuel r2 with
          | some (es, r3) => some (v :: es, r3)
          | none => none)
       | ']' :: r2 => some ([v], r2)
       | _ => none)
    | none => none

end

/-- Model of the ECMAScript built-in JSON.parse restricted to what the
code observes: the structured value on syntactically valid input, `none`
(a thrown SyntaxError) otherwise. -/
def jsonParse (s : String) : Option JsonValue :=
  match parseValue (s.data.length + 1) s.data with
  | some (v, rest) =>
    match skipWs rest with
    | [] => some v
    | _ => none
  | none => none

/-! ## The turn codec (parseGeminiJson)

Embeds `parseGeminiJson` of src/api/index.js (both copies carry the same
definition; src/server.js differs only in not calling `.trim()`, which
cannot change the brace positions relative to content nor the extracted
substring):

    try { return JSON.parse(text); } catch (e) {
      const cleaned = text.replace(/BqBqBqjson\n?|BqBqBq/g, '').trim();
      const firstBrace = cleaned.indexOf('\x7b');
      const lastBrace = cleaned.lastIndexOf('\x7d');
      if (firstBrace !== -1 && lastBrace !== -1) {
        return JSON.parse(cleaned.substring(firstBrace, lastBrace + 1));
      }
      throw new Error("No JSON found in response");
    }

(Bq stands for the backquote character, kept out of this comment.) -/

/-- The backquote (code-fence) character, 0x60. -/
def bq : Char := Char.ofNat 96

/-- The global regex replace of the code-fence markers: at each position,
a fence-json marker (with its optional trailing newline, preferred as in
regex alternation) or a bare triple-backquote fence is removed, otherwise
the character is kept. -/
def stripFencesAux : Nat → List Char → List Char
  | 0, cs => cs
  | Nat.succ _, [] => []
  | Nat.succ fuel, c :: rest =>
    if c = bq then
      match rest with
      | c2 :: c3 :: 'j' :: 's' :: 'o' :: 'n' :: '\n' :: rest2 =>
        if c2 = bq && c3 = bq then stripFencesAux fuel rest2
        else c :: stripFencesAux fuel rest
      | c2 :: c3 :: 'j' :: 's' :: 'o' :: 'n' :: rest2 =>
        if c2 = bq && c3 = bq then stripFencesAux fuel rest2
        else c :: stripFencesAux fuel rest
      | c2 :: c3 :: rest2 =>
        if c2 = bq && c3 = bq then stripFencesAux fuel rest2
        else c :: stripFencesAux fuel rest
      | _ => c :: stripFencesAux fuel rest
    else c :: stripFencesAux fuel rest

def stripFences (cs : List Char) : List Char := stripFencesAux cs.length cs

/-- The whitespace characters String.prototype.trim removes (the ASCII
ones; the further Unicode space characters never occur in the inputs
considered here). -/
def isTrimWs (c : Char) : Bool :=
  c = ' ' || c = '\t' || c = '\n' || c = '\r' || c = Char.ofNat 11 || c = Char.ofNat 12

/-- JS String.prototype.trim on the character list. -/
def jsTrim (cs : List Char) : List Char :=
  ((cs.dropWhile isTrimWs).reverse.dropWhile isTrimWs).reverse

/-- JS String.prototype.indexOf for a single character: the first index,
or none (JS returns -1). -/
def idxOfChar : List Char → Char → Option Nat
  | [], _ => none
  | c :: cs, t =>
    if c = t then some 0
    else match idxOfChar cs t with
         | some i => some (i + 1)
         | none => none

/-- JS String.prototype.lastIndexOf for a single character. -/
def lastIdxOfChar (cs : List Char) (t : Char) : Option Nat :=
  match idxOfChar cs.reverse t with
  | some i => some (cs.length - 1 - i)
  | none => none

/-- JS String.prototype.substring: both indices are clamped to the string
bounds and swapped when out of order, and the half-open range between them
is returned. -/
def jsSubstring (cs : List Char) (a b : Nat) : List Char :=
  let a2 := min a cs.length
  let b2 := min b cs.length
  ((cs.drop (min a2 b2)).take (max a2 b2 - min a2 b2))

/-- The `cleaned` string of the codec's fallback tier: code fences removed,
then trimmed. -/
def cleanedText (text : String) : String :=
  String.mk (jsTrim (stripFences text.data))

/-- The substring the fallback tier hands to JSON.parse: from the first
opening brace to the last closing brace inclusive, when both exist. -/
def extractCandidate (text : String) : Option String :=
  let cleaned := cleanedText text
  match idxOfChar cleaned.data lbrace, lastIdxOfChar cleaned.data rbrace with
  | some firstBrace, some lastBrace =>
    some (String.mk (jsSubstring cleaned.data firstBrace (lastBrace + 1)))
  | _, _ => none

/-- The turn codec `parseGeminiJson`: direct parse, else fence-stripped
brace-extraction parse, else failure (`none` models the thrown
"No JSON found in response" / parse error propagated to the caller). -/
def parseGeminiJson (text : String) : Option JsonValue :=
  match jsonParse text with
  | some v => some v
  | none =>
    match extractCandidate text with
    | some s => jsonParse s
    | none => none

/-! ## Session stores: turns, association-map primitives

A JS `Map` keyed by strings is modelled as an association list observed
through `lookupKey`; `setKey` models `Map.set` (replace-or-add) and
`delKey` models `Map.delete`. -/

/-- One content part of a turn in the vendor wire format: a text part or
an inline (base64 audio) data part with a mime type. -/
inductive MsgPart : Type where
  | text : String → MsgPart
  | inlineData : String → String → MsgPart
deriving DecidableEq

/-- One history entry: `role` is "user" or "model", with its parts. -/
structure Turn : Type where
  role : String
  parts : List MsgPart
deriving DecidableEq

def lookupKey (k : String) : List (String × α) → Option α
  | [] => none
  | (k2, v) :: rest => if k2 = k then some v else lookupKey k rest

def delKey (k : String) (m : List (String × α)) : List (String × α) :=
  m.filter (fun p => p.1 ≠ k)

def setKey (k : String) (v : α) (m : List (String × α)) : List (String × α) :=
  (k, v) :: delKey k m

/-- JS truthiness of an optional string (undefined and "" are falsy). -/
def strTruthy : Option String → Bool
  | none => false
  | some s => !s.isEmpty

/-- A language configuration entry (src has further fields — flag, voice,
greeting — that the verified logic never reads). -/
structure LangConfig : Type where
  name : String
  tutorName : String
deriving DecidableEq

/-- The outcome a handler sends back: `ok` is a 2xx JSON body,
`clientError` a 400 `\x7berror: msg\x7d` payload, `serverError` a 500
`\x7berror: msg\x7d` payload. -/
inductive HandlerResult : Type where
  | ok : JsonValue → HandlerResult
  | clientError : String → HandlerResult
  | serverError : String → HandlerResult

/-! ## The stateful backend variant (second half of src/api/index.js)

`chatSessions` maps a sessionId to a vendor chat handle; the handle's
observable state is the conversation history it has accumulated, so the
store is modelled as sessionId -> history.  The handle is created fresh
(empty history) on a lookup miss or whenever `scenario` is truthy, and
`sendMessage` on success appends the user prompt and the model reply. -/

/-- LANGUAGE_CONFIGS of the stateful variant. -/
def statefulConfigs : List (String × LangConfig) :=
  [("French", ⟨"French", "Pierre"⟩),
   ("English", ⟨"English", "James"⟩),
   ("Spanish", ⟨"Spanish", "Sofia"⟩),
   ("German", ⟨"German", "Hans"⟩),
   ("Russian", ⟨"Russian", "Dimitri"⟩),
   ("Japanese", ⟨"Japanese", "Yuki"⟩),
   ("Cantonese", ⟨"Cantonese", "Ka-ming"⟩)]

/-- The retrieve-or-create step of the stateful chat endpoint:

    let chat = chatSessions.get(sessionId);
    let isNewSession = false;
    if (!chat || scenario) \x7b
      isNewSession = true;
      chat = ai.chats.create(\x7b...\x7d);   // fresh handle, empty history
      chatSessions.set(sessionId, chat);
    \x7d

Returns ((history of the resolved handle, isNewSession), updated store). -/
def getOrCreate (store : List (String × List Turn)) (sessionId : String)
    (scen : Option String) : (List Turn × Bool) × List (String × List Turn) :=
  match lookupKey sessionId store with
  | some chat =>
    if strTruthy scen then (([], true), setKey sessionId [] store)
    else ((chat, false), store)
  | none => (([], true), setKey sessionId [] store)

/-- The scenario-opening prompt of the stateful variant and server.js. -/
def scenPrompt (cfg : LangConfig) (scen : String) : String :=
  "The current topic is: " ++ scen ++
  ". Start the conversation by introducing yourself as " ++ cfg.tutorName ++
  " and asking a relevant question in " ++ cfg.name ++ "."

/-- A chat request body of the stateful variant (`scen` models the
`scenario` field). -/
structure StatefulRequest : Type where
  message : String
  sessionId : Option String
  language : Option String
  scen : Option String

/-- The stateful `/api/chat` handler, parameterized by the vendor
outcome.  Mirrors, in order: the sessionId presence check (400), the
language config check (400), session retrieve-or-create, prompt
selection, the vendor call, codec decode, and the catch block
(`chatSessions.delete(req.body.sessionId)` then 500).  The preceding
API_KEY presence check is not modelled (the environment is taken as
configured; its throw would land in the same catch block). -/
def statefulChatHandler (store : List (String × List Turn))
    (req : StatefulRequest) (vendor : Except String String) :
    HandlerResult × List (String × List Turn) :=
  match req.sessionId with
  | none => (.clientError "Session ID required", store)
  | some sid =>
    if sid.isEmpty then (.clientError "Session ID required", store)
    else
      match req.language.bind (fun l => lookupKey l statefulConfigs) with
      | none => (.clientError "Invalid language", store)
      | some cfg =>
        let resolved := getOrCreate store sid req.scen
        let hist := resolved.1.1
        let isNewSession := resolved.1.2
        let store1 := resolved.2
        let prompt :=
          if isNewSession && strTruthy req.scen then
            scenPrompt cfg (req.scen.getD "")
          else req.message
        match vendor with
        | .error e => (.serverError e, delKey sid store1)
        | .ok text =>
          match parseGeminiJson text with
          | none => (.serverError "No JSON found in response", delKey sid store1)
          | some v =>
            (.ok v,
             setKey sid (hist ++ [⟨"user", [.text prompt]⟩, ⟨"model", [.text text]⟩]) store1)

/-! ## The guest/users backend variant (first half of src/api/index.js)

Identity resolution, free-user history truncation, parts construction,
vendor call, decode, history push and the 500-entry safety cap.  The JS
aliasing is made explicit: `history` aliases the stored array, so in-place
`push`/`splice` persist — except when the free-user branch rebinds
`history = history.slice(history.length - 50)`, after which pushes hit the
copy and the stored array is left untouched. -/

/-- A registered user record of the `users` map (profile and lastLogin are
never read by the chat logic). -/
structure UserRecord : Type where
  history : List Turn
  isPremium : Bool
deriving DecidableEq

/-- The two in-memory maps of the guest/users variant. -/
structure GuestState : Type where
  users : List (String × UserRecord)
  sessions : List (String × List Turn)
deriving DecidableEq

/-- LANGUAGE_CONFIGS of the guest/users variant (it alone has Chinese). -/
def guestConfigs : List (String × LangConfig) :=
  [("French", ⟨"French", "Pierre"⟩),
   ("English", ⟨"English", "James"⟩),
   ("Spanish", ⟨"Spanish", "Sofia"⟩),
   ("German", ⟨"German", "Hans"⟩),
   ("Russian", ⟨"Russian", "Dimitri"⟩),
   ("Japanese", ⟨"Japanese", "Yuki"⟩),
   ("Cantonese", ⟨"Cantonese", "Ka-ming"⟩),
   ("Chinese", ⟨"Chinese", "Li Wei"⟩)]

/-- `LANGUAGE_CONFIGS[language] || LANGUAGE_CONFIGS.French`: an unknown or
missing language silently falls back to the French configuration. -/
def guestResolveConfig (language : Option String) : LangConfig :=
  (language.bind (fun l => lookupKey l guestConfigs)).getD ⟨"French", "Pierre"⟩

/-- A chat request body of the guest/users variant.  `scen` models the
`scenario` field: the handler destructures it from the body but never
reads it — this variant has no topic-switch semantics. -/
structure GuestRequest : Type where
  message : Option String
  audioData : Option String
  audioMimeType : Option String
  sessionId : String
  userId : Option String
  language : Option String
  scen : Option String

/-- The content parts of the new user turn:

    if (audioData) parts.push(\x7binlineData: \x7bmimeType: audioMimeType || 'audio/webm', data\x7d\x7d);
    if (message) parts.push(\x7btext: message\x7d); -/
def buildParts (audioData audioMimeType message : Option String) : List MsgPart :=
  (match audioData with
   | some d =>
     if d.isEmpty then []
     else [MsgPart.inlineData
            (match audioMimeType with
             | some m => if m.isEmpty then "audio/webm" else m
             | none => "audio/webm") d]
   | none => []) ++
  (match message with
   | some m => if m.isEmpty then [] else [MsgPart.text m]
   | none => [])

/-- The free-user truncation: non-premium users with more than 50 stored
turns get only the most recent 50 (`history.slice(history.length - 50)`). -/
def effectiveHistory (u : UserRecord) : List Turn :=
  if !u.isPremium && decide (u.history.length > 50) then
    u.history.drop (u.history.length - 50)
  else u.history

/-- Whether the request-local `history` still aliases the stored array
(false exactly when the free-user slice rebound it to a copy). -/
def historyAliased (u : UserRecord) : Bool :=
  !(!u.isPremium && decide (u.history.length > 50))

/-- The post-exchange history update:

    history.push(\x7brole: 'user', parts\x7d);
    history.push(\x7brole: 'model', parts: [\x7btext: responseText\x7d]\x7d);
    if (history.length > 500) history.splice(0, 100); -/
def pushAndCap (h : List Turn) (userTurn modelTurn : Turn) : List Turn :=
  let h2 := h ++ [userTurn, modelTurn]
  if h2.length > 500 then h2.drop 100 else h2

/-- The guest/users `/api/chat` handler, parameterized by the vendor
outcome.  The triple also returns the contents sent to the vendor (the
history actually used plus the new user turn), observable through the
generateContent call. -/
def guestChatHandler (st : GuestState) (req : GuestRequest)
    (vendor : Except String String) :
    HandlerResult × GuestState × Option (List Turn) :=
  let parts := buildParts req.audioData req.audioMimeType req.message
  match req.userId.bind (fun uid =>
          if uid.isEmpty then none
          else (lookupKey uid st.users).map (fun u => (uid, u))) with
  | some (uid, u) =>
    let history := effectiveHistory u
    if parts = [] then (.clientError "No message or audio provided", st, none)
    else
      let contents := history ++ [⟨"user", parts⟩]
      match vendor with
      | .error e => (.serverError e, st, some contents)
      | .ok text =>
        match parseGeminiJson text with
        | none => (.serverError "No JSON found in response", st, some contents)
        | some v =>
          let newHist := pushAndCap history ⟨"user", parts⟩ ⟨"model", [.text text]⟩
          let users2 :=
            if historyAliased u then setKey uid ⟨newHist, u.isPremium⟩ st.users
            else st.users
          (.ok v, ⟨users2, st.sessions⟩, some contents)
  | none =>
    let sessions1 :=
      match lookupKey req.sessionId st.sessions with
      | none => setKey req.sessionId [] st.sessions
      | some _ => st.sessions
    let history := (lookupKey req.sessionId sessions1).getD []
    if parts = [] then
      (.clientError "No message or audio provided", ⟨st.users, sessions1⟩, none)
    else
      let contents := history ++ [⟨"user", parts⟩]
      match vendor with
      | .error e => (.serverError e, ⟨st.users, sessions1⟩, some contents)
      | .ok text =>
        match parseGeminiJson text with
        | none =>
          (.serverError "No JSON found in response", ⟨st.users, sessions1⟩, some contents)
        | some v =>
          let newHist := pushAndCap history ⟨"user", parts⟩ ⟨"model", [.text text]⟩
          (.ok v, ⟨st.users, setKey req.sessionId newHist sessions1⟩, some contents)

/-! ## The server.js `/api/chat/start` handler

Language gate, session creation under a freshly generated id (the id is a
parameter here, `Date.now().toString()` in the source), scenario prompt,
vendor call, decode.  Its catch does not delete the session. -/

/-- LANGUAGE_CONFIGS of src/server.js (voiceName fields omitted: the chat
logic never reads them). -/
def serverConfigs : List (String × LangConfig) :=
  [("French", ⟨"French", "Pierre"⟩),
   ("English", ⟨"English", "James"⟩),
   ("Spanish", ⟨"Spanish", "Sofia"⟩),
   ("German", ⟨"German", "Hans"⟩),
   ("Russian", ⟨"Russian", "Dimitri"⟩),
   ("Japanese", ⟨"Japanese", "Yuki"⟩)]

/-- The `/api/chat/start` handler of src/server.js.  The store's values
there are `\x7bsession, language\x7d` pairs; only the session's history is
observable to the verified logic, so the store is modelled as
sessionId -> history. -/
def chatStart (store : List (String × List Turn)) (newSessionId : String)
    (scen : String) (language : Option String) (vendor : Except String String) :
    HandlerResult × List (String × List Turn) :=
  match language.bind (fun l => lookupKey l serverConfigs) with
  | none => (.clientError "Invalid language", store)
  | some cfg =>
    let store1 := setKey newSessionId [] store
    let prompt := scenPrompt cfg scen
    match vendor with
    | .error e => (.serverError e, store1)
    | .ok text =>
      match parseGeminiJson text with
      | none => (.serverError "No JSON found in response", store1)
      | some v =>
        (.ok v,
         setKey newSessionId [⟨"user", [.text prompt]⟩, ⟨"model", [.text text]⟩] store1)

/-! ## The retry wrapper (src/services/mockData.ts, second part)

    const retryOperation = async (operation, retries = 3, delay = 500) => \x7b
      try \x7b return await operation(); \x7d
      catch (error) \x7b
        if (retries <= 0) throw error;
        await new Promise(resolve => setTimeout(resolve, delay));
        return retryOperation(operation, retries - 1, delay * 1.5);
      \x7d
    \x7d;

The operation is a function of the attempt index (0 for the initial call)
so that "fails twice then succeeds" is expressible; the result is paired
with the list of delays actually waited, in order. -/

def retryOperation {α : Type} (operation : Nat → Except String α)
    (attempt retries : Nat) (delay : ℚ) : Except String α × List ℚ :=
  match operation attempt with
  | .ok a => (.ok a, [])
  | .error e =>
    match retries with
    | 0 => (.error e, [])
    | r + 1 =>
      let rest := retryOperation operation (attempt + 1) r (delay * (3 / 2))
      (rest.1, delay :: rest.2)

/-! ## The client network layer (src/services/geminiService.ts, both copies)

`fetchWithTimeout` wraps fetch in an AbortController whose timer fires
after the configured timeout; the abort is surfaced as a dedicated
timeout message, any other rejection is rethrown unchanged, and a
completed response is returned.  The wrapped call's outcome (resolved,
aborted by the timer, or failed otherwise) is the model's parameter. -/

/-- The possible outcomes of the wrapped fetch. -/
inductive FetchOutcome : Type where
  | success : Nat → String → FetchOutcome
  | abortError : FetchOutcome
  | networkError : String → FetchOutcome

/-- First copy: `parseInt(import.meta.env?.VITE_API_TIMEOUT || '25000', 10)`
(the env value, when set and parsed, as a number). -/
def timeoutMsV1 (envTimeout : Option Nat) : Nat := envTimeout.getD 25000

/-- Second copy: `envTimeout ? parseInt(envTimeout) : 15000`. -/
def timeoutMsV2 (envTimeout : Option Nat) : Nat := envTimeout.getD 15000

/-- First copy's abort message (src/services/geminiService.ts line 49). -/
def timeoutMessageV1 (t : Nat) : String :=
  "Request timed out after " ++ toString (t / 1000) ++
  " seconds. The server might be waking up."

/-- Second copy's abort message. -/
def timeoutMessageV2 (t : Nat) : String :=
  "Request timed out after " ++ toString (t / 1000) ++
  " seconds. Backend might be sleeping."

/-- First copy of fetchWithTimeout. -/
def fetchWithTimeoutV1 (envTimeout : Option Nat) (outcome : FetchOutcome) :
    Except String (Nat × String) :=
  match outcome with
  | .success status body => .ok (status, body)
  | .abortError => .error (timeoutMessageV1 (timeoutMsV1 envTimeout))
  | .networkError msg => .error msg

/-- Second copy of fetchWithTimeout. -/
def fetchWithTimeoutV2 (envTimeout : Option Nat) (outcome : FetchOutcome) :
    Except String (Nat × String) :=
  match outcome with
  | .success status body => .ok (status, body)
  | .abortError => .error (timeoutMessageV2 (timeoutMsV2 envTimeout))
  | .networkError msg => .error msg

/-- How `chatWithGemini` (first copy) surfaces a server-reported error
payload: `throw new Error("Backend Error: " + errorMessage)`. -/
def backendErrorMessage (msg : String) : String := "Backend Error: " ++ msg

/-! ## The client speech request (generateSpeech, both copies)

The response body is `\x7baudioData: base64, format?: "mp3"|"pcm"\x7d`; the
payload bytes stand for the atob-decoded audioData. -/

/-- An audio clip as the client stores it (AudioResponse in the source):
decoded payload bytes and the format tag. -/
structure AudioResponse : Type where
  data : List Nat
  format : String
deriving DecidableEq

/-- `data.format || 'mp3'`: a missing or empty format tag defaults to
mp3. -/
def formatOrDefault : Option String → String
  | none => "mp3"
  | some s => if s.isEmpty then "mp3" else s

/-- The clip `generateSpeech` hands to the playback path, from the wire
response's decoded payload and optional format tag. -/
def generateSpeech (payloadBytes : List Nat) (fmt : Option String) : AudioResponse :=
  ⟨payloadBytes, formatOrDefault fmt⟩

/-! ## Audio playback decode (src/components/ChatBubble.tsx, handleSpeakTutor)

    if (audioResponse.format === 'mp3') \x7b
      ... ctx.decodeAudioData(bufferCopy) ...          // standard decoder
    \x7d else \x7b
      const dataInt16 = new Int16Array(pcmData.buffer);
      const float32 = new Float32Array(dataInt16.length);
      for (...) float32[i] = dataInt16[i] / 32768;
      ... ctx.createBuffer(1, float32.length, 24000) ...
    \x7d -/

/-- Where decode routed the clip: to the standard (mp3) decoder with the
raw payload, or to the manual PCM conversion with the computed float
samples (exact rationals: each int16 / 32768 is a dyadic rational that
float64 represents exactly). -/
inductive PlaybackResult : Type where
  | decodedMp3 : List Nat → PlaybackResult
  | pcmBuffer : List ℚ → PlaybackResult
deriving DecidableEq

/-- Reinterpret two bytes as one little-endian signed 16-bit sample
(what `new Int16Array(uint8.buffer)` yields per element). -/
def toInt16 (lo hi : Nat) : Int :=
  let u := lo + 256 * hi
  if u < 32768 then (u : Int) else (u : Int) - 65536

/-- The PCM branch's sample conversion: consecutive byte pairs to
`int16 / 32768`. -/
def bytesToSamples : List Nat → List ℚ
  | lo :: hi :: rest => ((toInt16 lo hi : Int) : ℚ) / 32768 :: bytesToSamples rest
  | [_] => []
  | [] => []

/-- The decode step of handleSpeakTutor: the format tag alone picks the
branch; a PCM payload of odd byte length makes the Int16Array constructor
throw (`none`). -/
def decodeForPlayback (resp : AudioResponse) : Option PlaybackResult :=
  if resp.format = "mp3" then some (.decodedMp3 resp.data)
  else if resp.data.length % 2 = 0 then some (.pcmBuffer (bytesToSamples resp.data))
  else none

/-- The concrete operation of the C6 witness: fails on the first two
attempts, then succeeds. -/
def flakyOperation : Nat → Except String Nat :=
  fun n => if n < 2 then .error "transient" else .ok 42

/-! ## Helper lemmas about the store primitives -/

theorem lookupKey_setKey_self {α : Type} (k : String) (v : α) (m : List (String × α)) :
    lookupKey k (setKey k v m) = some v := by
  simp [setKey, lookupKey]

theorem lookupKey_delKey_self {α : Type} (k : String) (m : List (String × α)) :
    lookupKey k (delKey k m) = none := by
  induction m with
  | nil => rfl
  | cons p rest ih =>
    by_cases h : p.1 = k
    · simpa [delKey, List.filter_cons, h] using ih
    · simpa [delKey, List.filter_cons, h, lookupKey] using ih

/-! ## Claim theorems -/

/-- C1: the turn codec's decode is a two-tier parse: a syntactically valid
input returns exactly its direct parse; otherwise the code-fence-stripped
first-brace..last-brace substring is parsed; decode fails exactly when the
direct parse fails and no brace pair exists (or the extracted substring is
itself invalid); in particular decode of "no json here" fails. -/
theorem c1_decode_two_tier :
    (∀ text v, jsonParse text = some v → parseGeminiJson text = some v) ∧
    (∀ text, jsonParse text = none →
      parseGeminiJson text = (extractCandidate text).bind jsonParse) ∧
    (∀ text, parseGeminiJson text = none ↔
      (jsonParse text = none ∧
        ∀ s, extractCandidate text = some s → jsonParse s = none)) ∧
    parseGeminiJson "no json here" = none := by
  refine ⟨?_, ?_, ?_, ?_⟩
  · intro text v h
    simp [parseGeminiJson, h]
  · intro text h
    cases h2 : extractCandidate text <;> simp [parseGeminiJson, h, h2]
  · intro text
    cases h : jsonParse text with
    | some v => simp [parseGeminiJson, h]
    | none =>
      cases h2 : extractCandidate text with
      | none => simp [parseGeminiJson, h, h2]
      | some s => simp [parseGeminiJson, h, h2]
  · rfl

/-- C1 witness: the two-tier decode evaluated on a concrete valid JSON
object. -/
theorem c1_decode_two_tier_witness :
    parseGeminiJson "\x7b\"a\":1\x7d" = some (JsonValue.jobj [("a", JsonValue.jnum "1")]) :=
  c1_decode_two_tier.1 "\x7b\"a\":1\x7d" (JsonValue.jobj [("a", JsonValue.jnum "1")]) rfl

/-- C2 (amended): on the stateful variant's session resolution, a truthy
scenario on an existing session — and likewise a lookup miss — binds a
fresh session with history length 0 to the same sessionId, discarding old
turns.  The guest/users variant has no such semantics: its handler is
invariant in the scenario field (it destructures but never reads it), a
lookup miss creates a fresh session bound to the same sessionId (holding
exactly the exchange's two turns on success), and an existing session's
history is retained and appended to, not replaced (see the
counterexample). -/
theorem c2_scenario_replaces_session :
    (∀ (store : List (String × List Turn)) (sessionId : String) (scen : Option String),
      ((lookupKey sessionId store).isSome = true → strTruthy scen = true →
        (getOrCreate store sessionId scen).1.1 = [] ∧
        lookupKey sessionId (getOrCreate store sessionId scen).2 = some []) ∧
      (lookupKey sessionId store = none →
        (getOrCreate store sessionId scen).1.1 = [] ∧
        lookupKey sessionId (getOrCreate store sessionId scen).2 = some [])) ∧
    (∀ (st : GuestState) (req : GuestRequest) (vendor : Except String String)
       (scen2 : Option String),
      guestChatHandler st req vendor =
        guestChatHandler st ⟨req.message, req.audioData, req.audioMimeType,
          req.sessionId, req.userId, req.language, scen2⟩ vendor) ∧
    (∀ (st : GuestState) (req : GuestRequest) (text : String) (v : JsonValue),
      req.userId = none →
      lookupKey req.sessionId st.sessions = none →
      buildParts req.audioData req.audioMimeType req.message ≠ [] →
      parseGeminiJson text = some v →
      lookupKey req.sessionId (guestChatHandler st req (.ok text)).2.1.sessions =
        some [⟨"user", buildParts req.audioData req.audioMimeType req.message⟩,
              ⟨"model", [MsgPart.text text]⟩]) ∧
    (∀ (st : GuestState) (req : GuestRequest) (text : String) (v : JsonValue)
       (h : List Turn),
      req.userId = none →
      lookupKey req.sessionId st.sessions = some h →
      buildParts req.audioData req.audioMimeType req.message ≠ [] →
      parseGeminiJson text = some v →
      h.length + 2 ≤ 500 →
      lookupKey req.sessionId (guestChatHandler st req (.ok text)).2.1.sessions =
        some (h ++ [⟨"user", buildParts req.audioData req.audioMimeType req.message⟩,
                    ⟨"model", [MsgPart.text text]⟩])) := by
  refine ⟨?_, ?_, ?_, ?_⟩
  · intro store sid scen
    constructor
    · intro h hs
      cases h2 : lookupKey sid store with
      | none => rw [h2] at h; simp at h
      | some chat => simp [getOrCreate, h2, hs, lookupKey_setKey_self]
    · intro h
      simp [getOrCreate, h, lookupKey_setKey_self]
  · intro st req vendor scen2
    rfl
  · intro st req text v huid hmiss hparts hparse
    simp [guestChatHandler, huid, hmiss, if_neg hparts, hparse,
      lookupKey_setKey_self, pushAndCap]
  · intro st req text v h huid hsess hparts hparse hlen
    have hcap : pushAndCap h
        ⟨"user", buildParts req.audioData req.audioMimeType req.message⟩
        ⟨"model", [MsgPart.text text]⟩ =
        h ++ [⟨"user", buildParts req.audioData req.audioMimeType req.message⟩,
              ⟨"model", [MsgPart.text text]⟩] := by
      simp only [pushAndCap]
      rw [if_neg]
      simp only [List.length_append, List.length_cons, List.length_nil]
      omega
    simp [guestChatHandler, huid, hsess, hparse, hcap, if_neg hparts,
      lookupKey_setKey_self]

/-- C2 witness: a CAFE-scenario session replaced by a TRAVEL-scenario
request under the same id ends, on the stateful variant, with empty
history. -/
theorem c2_scenario_replaces_session_witness :
    (getOrCreate [("s1", [⟨"user", [MsgPart.text "bonjour"]⟩])] "s1" (some "TRAVEL")).1.1 = [] ∧
    lookupKey "s1" (getOrCreate [("s1", [⟨"user", [MsgPart.text "bonjour"]⟩])] "s1"
      (some "TRAVEL")).2 = some [] :=
  (c2_scenario_replaces_session.1 [("s1", [⟨"user", [MsgPart.text "bonjour"]⟩])] "s1"
    (some "TRAVEL")).1 rfl rfl

/-- C2 counterexample: on the guest/users variant a request carrying the
non-empty scenario "TRAVEL" for a sessionId that already has a stored
session leaves the old turn in place and appends the new exchange — the
resulting history has length 3, not 0 — so the claim's "replaces the
session wholesale: afterwards the session bound to that sessionId has
history length 0 (old turns discarded, not appended to)" is false on
this variant. -/
theorem c2_guest_scenario_appends :
    (guestChatHandler ⟨[], [("s1", [⟨"model", [MsgPart.text "salut"]⟩])]⟩
      ⟨some "hi", none, none, "s1", none, some "French", some "TRAVEL"⟩
      (.ok "\x7b\x7d")).1 = HandlerResult.ok (JsonValue.jobj []) ∧
    lookupKey "s1" (guestChatHandler ⟨[], [("s1", [⟨"model", [MsgPart.text "salut"]⟩])]⟩
      ⟨some "hi", none, none, "s1", none, some "French", some "TRAVEL"⟩
      (.ok "\x7b\x7d")).2.1.sessions =
      some [⟨"model", [MsgPart.text "salut"]⟩, ⟨"user", [MsgPart.text "hi"]⟩,
            ⟨"model", [MsgPart.text "\x7b\x7d"]⟩] :=
  ⟨rfl, rfl⟩

/-- C3 (amended): in the stateful variant, any failure after the session
was resolved (vendor error or decode failure) removes the store's mapping
for the request's sessionId and returns a typed 500 error payload.  (The
guest variant returns the 500 payload but retains the mapping; see the
counterexample.) -/
theorem c3_stateful_failure_invalidates :
    ∀ (store : List (String × List Turn)) (req : StatefulRequest)
      (vendor : Except String String) (sid : String),
      req.sessionId = some sid → sid.isEmpty = false →
      (req.language.bind (fun l => lookupKey l statefulConfigs)).isSome = true →
      (∀ t, vendor = Except.ok t → parseGeminiJson t = none) →
      (∃ e, (statefulChatHandler store req vendor).1 = HandlerResult.serverError e) ∧
      lookupKey sid (statefulChatHandler store req vendor).2 = none := by
  intro store req vendor sid hsid hne hcfg hfail
  obtain ⟨cfg, hc⟩ := Option.isSome_iff_exists.mp hcfg
  cases vendor with
  | error e =>
    refine ⟨⟨e, ?_⟩, ?_⟩ <;>
      simp [statefulChatHandler, hsid, hne, hc, lookupKey_delKey_self]
  | ok t =>
    have hp := hfail t rfl
    refine ⟨⟨"No JSON found in response", ?_⟩, ?_⟩ <;>
      simp [statefulChatHandler, hsid, hne, hc, hp, lookupKey_delKey_self]

/-- C3 witness: a concrete failing stateful exchange ends with the session
mapping gone and a 500 payload. -/
theorem c3_stateful_failure_invalidates_witness :
    (∃ e, (statefulChatHandler [("s2", [⟨"user", [MsgPart.text "hallo"]⟩])]
      ⟨"hi", some "s2", some "German", none⟩ (.error "boom")).1 =
      HandlerResult.serverError e) ∧
    lookupKey "s2" (statefulChatHandler [("s2", [⟨"user", [MsgPart.text "hallo"]⟩])]
      ⟨"hi", some "s2", some "German", none⟩ (.error "boom")).2 = none :=
  c3_stateful_failure_invalidates [("s2", [⟨"user", [MsgPart.text "hallo"]⟩])]
    ⟨"hi", some "s2", some "German", none⟩ (.error "boom") "s2" rfl rfl rfl
    (fun _ ht => nomatch ht)

/-- C3 counterexample: in the guest variant a vendor failure after the
session was resolved returns the 500 payload but the session store still
maps the request's sessionId (the handler's catch does not delete it), so
the claim's "whenever handling fails ... the mapping is removed" is false
on this variant. -/
theorem c3_guest_failure_keeps_mapping :
    (guestChatHandler ⟨[], [("s1", [⟨"user", [MsgPart.text "bonjour"]⟩])]⟩
      ⟨some "hi", none, none, "s1", none, some "French", none⟩ (.error "vendor down")).1 =
      HandlerResult.serverError "vendor down" ∧
    lookupKey "s1" (guestChatHandler ⟨[], [("s1", [⟨"user", [MsgPart.text "bonjour"]⟩])]⟩
      ⟨some "hi", none, none, "s1", none, some "French", none⟩
      (.error "vendor down")).2.1.sessions =
      some [⟨"user", [MsgPart.text "bonjour"]⟩] :=
  ⟨rfl, rfl⟩

/-- C4 (amended): the stateful variant and server.js's chat-start reject a
language outside their configuration tables with a 400 "Invalid language"
and leave the store untouched; the guest variant instead falls back to the
French configuration (see the counterexample). -/
theorem c4_invalid_language_stateful_rejects :
    (∀ (store : List (String × List Turn)) (msg sid : String)
       (language scen : Option String) (vendor : Except String String),
       sid.isEmpty = false →
       language.bind (fun l => lookupKey l statefulConfigs) = none →
       statefulChatHandler store ⟨msg, some sid, language, scen⟩ vendor =
         (HandlerResult.clientError "Invalid language", store)) ∧
    (∀ (store : List (String × List Turn)) (newSessionId scen : String)
       (language : Option String) (vendor : Except String String),
       language.bind (fun l => lookupKey l serverConfigs) = none →
       chatStart store newSessionId scen language vendor =
         (HandlerResult.clientError "Invalid language", store)) ∧
    (∀ language : Option String,
       language.bind (fun l => lookupKey l guestConfigs) = none →
       guestResolveConfig language = ⟨"French", "Pierre"⟩) := by
  refine ⟨?_, ?_, ?_⟩
  · intro store msg sid language scen vendor hne hlang
    simp [statefulChatHandler, hne, hlang]
  · intro store nsid scen language vendor hlang
    simp [chatStart, hlang]
  · intro language hlang
    simp [guestResolveConfig, hlang]

/-- C4 witness: a concrete unknown language is rejected by the stateful
variant with 400 and an unchanged store. -/
theorem c4_invalid_language_stateful_rejects_witness :
    statefulChatHandler [] ⟨"hi", some "s1", some "Klingon", none⟩ (.ok "ignored") =
      (HandlerResult.clientError "Invalid language", []) :=
  c4_invalid_language_stateful_rejects.1 [] "hi" "s1" (some "Klingon") none
    (.ok "ignored") rfl rfl

/-- C4 counterexample: the guest variant does not reject an unknown
language: the request proceeds under the French fallback configuration and
creates/updates the session, so the claim's "every chat request with an
unsupported language is rejected and no session is created" is false on
this variant. -/
theorem c4_guest_unknown_language_proceeds :
    (guestChatHandler ⟨[], []⟩ ⟨some "hi", none, none, "s1", none, some "Klingon", none⟩
      (.ok "\x7b\x7d")).1 = HandlerResult.ok (JsonValue.jobj []) ∧
    lookupKey "s1" (guestChatHandler ⟨[], []⟩
      ⟨some "hi", none, none, "s1", none, some "Klingon", none⟩ (.ok "\x7b\x7d")).2.1.sessions =
      some [⟨"user", [MsgPart.text "hi"]⟩, ⟨"model", [MsgPart.text "\x7b\x7d"]⟩] ∧
    guestResolveConfig (some "Klingon") = ⟨"French", "Pierre"⟩ :=
  ⟨rfl, rfl, rfl⟩

/-- C5 (amended): histories at or under 500 entries stay so, an append
past 500 drops exactly the oldest 100 whole entries keeping the most
recent contiguous ones, and a non-premium user's history over 50 entries
is truncated to the most recent 50 for the request — but for such a user
the store itself is left entirely unchanged by the request (the truncated
copy, and the new turns pushed onto it, are never persisted). -/
theorem c5_history_caps :
    (∀ (h : List Turn) (u m : Turn), h.length ≤ 500 →
       (pushAndCap h u m).length ≤ 500) ∧
    (∀ (h : List Turn) (u m : Turn), h.length + 2 > 500 →
       pushAndCap h u m = (h ++ [u, m]).drop 100) ∧
    (∀ u : UserRecord, u.isPremium = false → u.history.length > 50 →
       effectiveHistory u = u.history.drop (u.history.length - 50) ∧
       (effectiveHistory u).length = 50) ∧
    (∀ (st : GuestState) (req : GuestRequest) (vendor : Except String String)
       (uid : String) (u : UserRecord),
       req.userId = some uid → uid.isEmpty = false →
       lookupKey uid st.users = some u →
       u.isPremium = false → u.history.length > 50 →
       (guestChatHandler st req vendor).2.1 = st) := by
  refine ⟨?_, ?_, ?_, ?_⟩
  · intro h u m hle
    simp only [pushAndCap]
    split_ifs with hc
    · simp only [List.length_drop, List.length_append, List.length_cons,
        List.length_nil]
      omega
    · simp only [List.length_append, List.length_cons, List.length_nil] at hc ⊢
      omega
  · intro h u m hgt
    simp only [pushAndCap]
    split_ifs with hc
    · rfl
    · exact absurd (by simpa [List.length_append] using hgt) hc
  · intro u hp hl
    refine ⟨by simp [effectiveHistory, hp, hl], ?_⟩
    simp only [effectiveHistory, hp, hl]
    simp [List.length_drop]
    omega
  · intro st req vendor uid u hu hne hl hp hlen
    have halias : historyAliased u = false := by
      simp [historyAliased, hp, hlen]
    have hscrut : (req.userId.bind (fun uid2 =>
        if uid2.isEmpty then none
        else (lookupKey uid2 st.users).map (fun u2 => (uid2, u2)))) = some (uid, u) := by
      rw [hu]
      simp [hne, hl]
    simp only [guestChatHandler, hscrut]
    by_cases hparts : buildParts req.audioData req.audioMimeType req.message = []
    · simp only [if_pos hparts]
    · simp only [if_neg hparts]
      cases vendor with
      | error e => rfl
      | ok t =>
        cases hpt : parseGeminiJson t with
        | none => simp only [hpt]
        | some v =>
          simp only [hpt]
          rw [halias]
          rfl

set_option maxRecDepth 4096 in
/-- C5 witness: a concrete free user with 51 stored turns — the request
leaves the whole backend state untouched. -/
theorem c5_history_caps_witness :
    (guestChatHandler
      ⟨[("u1", ⟨List.replicate 51 ⟨"user", [MsgPart.text "m"]⟩, false⟩)], []⟩
      ⟨some "hi", none, none, "s1", some "u1", some "French", none⟩
      (.ok "\x7b\x7d")).2.1 =
      ⟨[("u1", ⟨List.replicate 51 ⟨"user", [MsgPart.text "m"]⟩, false⟩)], []⟩ :=
  c5_history_caps.2.2.2
    ⟨[("u1", ⟨List.replicate 51 ⟨"user", [MsgPart.text "m"]⟩, false⟩)], []⟩
    ⟨some "hi", none, none, "s1", some "u1", some "French", none⟩
    (.ok "\x7b\x7d") "u1" ⟨List.replicate 51 ⟨"user", [MsgPart.text "m"]⟩, false⟩
    rfl rfl rfl rfl (by simp)

/-- C5 counterexample: after a successful exchange of a non-premium user
whose stored history holds 51 turns, the stored history is still exactly
those 51 turns — neither capped to the most recent 50 nor extended by the
new turns — so the claim's "the history used and kept is capped to the
most recent 50 entries" is false for "kept". -/
theorem c5_free_user_history_not_pruned :
    (guestChatHandler
      ⟨[("u1", ⟨List.replicate 51 ⟨"user", [MsgPart.text "m"]⟩, false⟩)], []⟩
      ⟨some "hi", none, none, "s1", some "u1", some "French", none⟩
      (.ok "\x7b\x7d")).1 = HandlerResult.ok (JsonValue.jobj []) ∧
    lookupKey "u1" (guestChatHandler
      ⟨[("u1", ⟨List.replicate 51 ⟨"user", [MsgPart.text "m"]⟩, false⟩)], []⟩
      ⟨some "hi", none, none, "s1", some "u1", some "French", none⟩
      (.ok "\x7b\x7d")).2.1.users =
      some ⟨List.replicate 51 ⟨"user", [MsgPart.text "m"]⟩, false⟩ ∧
    (50 : Nat) < (List.replicate 51 (⟨"user", [MsgPart.text "m"]⟩ : Turn)).length :=
  ⟨rfl, rfl, by simp⟩

/-- C6: the retry wrapper is a bounded exponential-backoff loop: with the
default 3-retry budget and base delay d, an operation failing exactly
twice then succeeding returns the success after waiting d and then
d * 1.5; an always-failing operation is attempted 1 + 3 times, waits
d, d * 1.5, d * 1.5², and surfaces its error — and in general an
always-failing operation under a budget of `retries` waits exactly
`retries` delays (one fewer than the attempts) before its error
surfaces. -/
theorem retryOperation_step_ok {α : Type} (operation : Nat → Except String α)
    (attempt retries : Nat) (delay : ℚ) (a : α) (h : operation attempt = .ok a) :
    retryOperation operation attempt retries delay = (.ok a, []) := by
  rw [retryOperation.eq_def, h]

theorem retryOperation_step_err_zero {α : Type} (operation : Nat → Except String α)
    (attempt : Nat) (delay : ℚ) (e : String) (h : operation attempt = .error e) :
    retryOperation operation attempt 0 delay = (.error e, []) := by
  rw [retryOperation.eq_def, h]

theorem retryOperation_step_err_succ {α : Type} (operation : Nat → Except String α)
    (attempt r : Nat) (delay : ℚ) (e : String) (h : operation attempt = .error e) :
    retryOperation operation attempt (r + 1) delay =
      ((retryOperation operation (attempt + 1) r (delay * (3 / 2))).1,
       delay :: (retryOperation operation (attempt + 1) r (delay * (3 / 2))).2) := by
  rw [retryOperation.eq_def, h]

theorem c6_retry_policy :
    ∀ {α : Type} (operation : Nat → Except String α) (d : ℚ) (a : α) (e0 e1 e : String),
      (operation 0 = .error e0 → operation 1 = .error e1 → operation 2 = .ok a →
        retryOperation operation 0 3 d = (.ok a, [d, d * (3 / 2)])) ∧
      ((∀ n, operation n = .error e) →
        retryOperation operation 0 3 d =
          (.error e, [d, d * (3 / 2), d * (3 / 2) * (3 / 2)])) ∧
      ((∀ n, operation n = .error e) → ∀ (retries attempt : Nat) (delay : ℚ),
        (retryOperation operation attempt retries delay).1 = .error e ∧
        (retryOperation operation attempt retries delay).2.length = retries) := by
  intro α operation d a e0 e1 e
  have always : (∀ n, operation n = .error e) → ∀ (retries attempt : Nat) (delay : ℚ),
      (retryOperation operation attempt retries delay).1 = .error e ∧
      (retryOperation operation attempt retries delay).2.length = retries := by
    intro h retries
    induction retries with
    | zero =>
      intro attempt delay
      rw [retryOperation_step_err_zero operation attempt delay e (h attempt)]
      exact ⟨rfl, rfl⟩
    | succ r ih =>
      intro attempt delay
      rw [retryOperation_step_err_succ operation attempt r delay e (h attempt)]
      exact ⟨(ih (attempt + 1) (delay * (3 / 2))).1,
        by simp [(ih (attempt + 1) (delay * (3 / 2))).2]⟩
  refine ⟨?_, ?_, always⟩
  · intro h0 h1 h2
    rw [retryOperation_step_err_succ operation 0 2 d e0 h0,
        retryOperation_step_err_succ operation 1 1 (d * (3 / 2)) e1 h1,
        retryOperation_step_ok operation 2 1 (d * (3 / 2) * (3 / 2)) a h2]
  · intro h
    rw [retryOperation_step_err_succ operation 0 2 d e (h 0),
        retryOperation_step_err_succ operation 1 1 (d * (3 / 2)) e (h 1),
        retryOperation_step_err_succ operation 2 0 (d * (3 / 2) * (3 / 2)) e (h 2),
        retryOperation_step_err_zero operation 3 (d * (3 / 2) * (3 / 2) * (3 / 2)) e (h 3)]

/-- C6 witness: the wrapper on a concrete operation that fails twice then
yields 42, with base delay 500: success, after delays 500 and 750. -/
theorem c6_retry_policy_witness :
    retryOperation flakyOperation 0 3 500 = (.ok 42, [500, 500 * (3 / 2)]) :=
  (c6_retry_policy flakyOperation 500 42 "transient" "transient" "transient").1
    rfl rfl rfl

/-- C8: a successful guest exchange whose append stays within the hard cap
appends exactly the user turn then the model turn to the stored session
history, leaves every previously stored entry of that history in place,
and leaves the users map unchanged. -/
theorem c8_success_appends_two :
    ∀ (st : GuestState) (req : GuestRequest) (text : String) (v : JsonValue)
      (h : List Turn),
      req.userId = none →
      lookupKey req.sessionId st.sessions = some h →
      buildParts req.audioData req.audioMimeType req.message ≠ [] →
      parseGeminiJson text = some v →
      h.length + 2 ≤ 500 →
      (guestChatHandler st req (.ok text)).1 = HandlerResult.ok v ∧
      lookupKey req.sessionId (guestChatHandler st req (.ok text)).2.1.sessions =
        some (h ++ [⟨"user", buildParts req.audioData req.audioMimeType req.message⟩,
                    ⟨"model", [MsgPart.text text]⟩]) ∧
      (guestChatHandler st req (.ok text)).2.1.users = st.users := by
  intro st req text v h huid hsess hparts hparse hlen
  have hcap : pushAndCap h ⟨"user", buildParts req.audioData req.audioMimeType req.message⟩
      ⟨"model", [MsgPart.text text]⟩ =
      h ++ [⟨"user", buildParts req.audioData req.audioMimeType req.message⟩,
            ⟨"model", [MsgPart.text text]⟩] := by
    simp only [pushAndCap]
    rw [if_neg]
    simp only [List.length_append, List.length_cons, List.length_nil]
    omega
  refine ⟨?_, ?_, ?_⟩ <;>
    simp [guestChatHandler, huid, hsess, hparse, hcap, if_neg hparts,
      lookupKey_setKey_self]

/-- C8 witness: a concrete successful guest exchange appends USER then
MODEL to the existing single-turn history. -/
theorem c8_success_appends_two_witness :
    (guestChatHandler ⟨[], [("s1", [⟨"model", [MsgPart.text "salut"]⟩])]⟩
      ⟨some "hi", none, none, "s1", none, some "French", none⟩ (.ok "\x7b\x7d")).1 =
      HandlerResult.ok (JsonValue.jobj []) ∧
    lookupKey "s1" (guestChatHandler ⟨[], [("s1", [⟨"model", [MsgPart.text "salut"]⟩])]⟩
      ⟨some "hi", none, none, "s1", none, some "French", none⟩ (.ok "\x7b\x7d")).2.1.sessions =
      some ([⟨"model", [MsgPart.text "salut"]⟩] ++
        [⟨"user", [MsgPart.text "hi"]⟩, ⟨"model", [MsgPart.text "\x7b\x7d"]⟩]) ∧
    (guestChatHandler ⟨[], [("s1", [⟨"model", [MsgPart.text "salut"]⟩])]⟩
      ⟨some "hi", none, none, "s1", none, some "French", none⟩ (.ok "\x7b\x7d")).2.1.users = [] :=
  c8_success_appends_two ⟨[], [("s1", [⟨"model", [MsgPart.text "salut"]⟩])]⟩
    ⟨some "hi", none, none, "s1", none, some "French", none⟩ "\x7b\x7d" (JsonValue.jobj [])
    [⟨"model", [MsgPart.text "salut"]⟩] rfl rfl (by decide) rfl (by decide)

/-! ## Lemmas on the PCM sample conversion -/

theorem bytesToSamples_length : ∀ l : List Nat, (bytesToSamples l).length = l.length / 2
  | [] => by simp [bytesToSamples]
  | [_] => by simp [bytesToSamples]
  | lo :: hi :: rest => by
    simp only [bytesToSamples, List.length_cons, bytesToSamples_length rest]
    omega

theorem bytesToSamples_bounded : ∀ l : List Nat, (∀ b ∈ l, b < 256) →
    ∀ s ∈ bytesToSamples l, -1 ≤ s ∧ s ≤ 1
  | [], _, s, hs => by simp [bytesToSamples] at hs
  | [_], _, s, hs => by simp [bytesToSamples] at hs
  | lo :: hi :: rest, hb, s, hs => by
    simp only [bytesToSamples, List.mem_cons] at hs
    rcases hs with rfl | hs
    · have hlo : lo < 256 := hb lo (by simp)
      have hhi : hi < 256 := hb hi (by simp)
      have h16 : -32768 ≤ toInt16 lo hi ∧ toInt16 lo hi ≤ 32767 := by
        simp only [toInt16]
        split_ifs with hu <;> constructor <;> omega
      constructor
      · rw [le_div_iff₀ (by norm_num : (0 : ℚ) < 32768)]
        have hc : ((-32768 : Int) : ℚ) ≤ ((toInt16 lo hi : Int) : ℚ) := by
          exact_mod_cast h16.1
        push_cast at hc ⊢
        linarith
      · rw [div_le_iff₀ (by norm_num : (0 : ℚ) < 32768)]
        have hc : ((toInt16 lo hi : Int) : ℚ) ≤ ((32767 : Int) : ℚ) := by
          exact_mod_cast h16.2
        push_cast at hc ⊢
        linarith
    · exact bytesToSamples_bounded rest (fun b h => hb b (by simp [h])) s hs

theorem bytesToSamples_zeros :
    ∀ n : Nat, bytesToSamples (List.replicate (2 * n) 0) = List.replicate n 0
  | 0 => rfl
  | n + 1 => by
    have h2 : 2 * (n + 1) = 2 * n + 1 + 1 := by ring
    rw [h2, List.replicate_succ, List.replicate_succ]
    rw [show bytesToSamples (0 :: 0 :: List.replicate (2 * n) 0) =
        ((toInt16 0 0 : Int) : ℚ) / 32768 :: bytesToSamples (List.replicate (2 * n) 0)
        from rfl]
    rw [bytesToSamples_zeros n, List.replicate_succ]
    norm_num [toInt16]

/-- C7: the playback decode on a 'pcm'-tagged clip interprets the payload
as 16-bit samples, one float `int16 / 32768` per byte pair, all in
[-1, 1], with `n` zero samples mapping to `n` zero floats; an 'mp3'-tagged
clip is routed to the standard decoder, the tag alone (never the payload)
deciding the branch. -/
theorem c7_decode_pcm_and_mp3 :
    (∀ payload : List Nat, payload.length % 2 = 0 →
       decodeForPlayback ⟨payload, "pcm"⟩ =
         some (.pcmBuffer (bytesToSamples payload))) ∧
    (∀ (lo hi : Nat) (rest : List Nat),
       bytesToSamples (lo :: hi :: rest) =
         ((toInt16 lo hi : Int) : ℚ) / 32768 :: bytesToSamples rest) ∧
    (∀ payload : List Nat, (bytesToSamples payload).length = payload.length / 2) ∧
    (∀ payload : List Nat, (∀ b ∈ payload, b < 256) →
       ∀ s ∈ bytesToSamples payload, -1 ≤ s ∧ s ≤ 1) ∧
    (∀ n : Nat, decodeForPlayback ⟨List.replicate (2 * n) 0, "pcm"⟩ =
       some (.pcmBuffer (List.replicate n 0))) ∧
    (∀ payload : List Nat, decodeForPlayback ⟨payload, "mp3"⟩ =
       some (.decodedMp3 payload)) := by
  refine ⟨?_, fun lo hi rest => rfl, bytesToSamples_length, bytesToSamples_bounded,
    ?_, fun payload => rfl⟩
  · intro payload hev
    simp [decodeForPlayback, hev]
  · intro n
    have hev : (List.replicate (2 * n) (0 : Nat)).length % 2 = 0 := by
      simp [List.length_replicate, Nat.mul_mod_right]
    simp [decodeForPlayback, hev, bytesToSamples_zeros n]

/-- C7 witness: two zero bytes decode, per the pcm branch, to a single
zero sample. -/
theorem c7_decode_pcm_and_mp3_witness :
    decodeForPlayback ⟨List.replicate (2 * 1) 0, "pcm"⟩ =
      some (.pcmBuffer (List.replicate 1 0)) :=
  c7_decode_pcm_and_mp3.2.2.2.2.1 1

/-- C9: both fetch wrappers default their timeout within 15-25 seconds
(25000 ms and 15000 ms); the timer's abort is surfaced as the dedicated
timeout message while any other network failure passes through unchanged;
and the timeout message can never coincide with a server-reported error
payload as `chatWithGemini` surfaces it. -/
theorem c9_fetch_timeout :
    timeoutMsV1 none = 25000 ∧ timeoutMsV2 none = 15000 ∧
    (15000 ≤ timeoutMsV1 none ∧ timeoutMsV1 none ≤ 25000) ∧
    (15000 ≤ timeoutMsV2 none ∧ timeoutMsV2 none ≤ 25000) ∧
    (∀ envTimeout, fetchWithTimeoutV1 envTimeout .abortError =
       .error (timeoutMessageV1 (timeoutMsV1 envTimeout))) ∧
    (∀ envTimeout, fetchWithTimeoutV2 envTimeout .abortError =
       .error (timeoutMessageV2 (timeoutMsV2 envTimeout))) ∧
    (∀ envTimeout msg, fetchWithTimeoutV1 envTimeout (.networkError msg) = .error msg) ∧
    (∀ envTimeout msg, fetchWithTimeoutV2 envTimeout (.networkError msg) = .error msg) ∧
    (∀ msg, timeoutMessageV1 (timeoutMsV1 none) ≠ backendErrorMessage msg) ∧
    (∀ msg, timeoutMessageV2 (timeoutMsV2 none) ≠ backendErrorMessage msg) := by
  have hb : ∀ msg : String, (backendErrorMessage msg).data.head? = some 'B' :=
    fun msg => rfl
  refine ⟨rfl, rfl, ⟨by decide, by decide⟩, ⟨by decide, by decide⟩,
    fun _ => rfl, fun _ => rfl, fun _ _ => rfl, fun _ _ => rfl, ?_, ?_⟩
  · intro msg h
    have h2 : (timeoutMessageV1 (timeoutMsV1 none)).data.head? =
        (backendErrorMessage msg).data.head? := congrArg (fun s => s.data.head?) h
    rw [hb msg] at h2
    have h3 : (timeoutMessageV1 (timeoutMsV1 none)).data.head? = some 'R' := rfl
    rw [h3] at h2
    exact absurd h2 (by decide)
  · intro msg h
    have h2 : (timeoutMessageV2 (timeoutMsV2 none)).data.head? =
        (backendErrorMessage msg).data.head? := congrArg (fun s => s.data.head?) h
    rw [hb msg] at h2
    have h3 : (timeoutMessageV2 (timeoutMsV2 none)).data.head? = some 'R' := rfl
    rw [h3] at h2
    exact absurd h2 (by decide)

/-- C9 witness: the timeout message for the default 25-second timeout is
distinct from the surfaced form of a concrete server-reported error. -/
theorem c9_fetch_timeout_witness :
    timeoutMessageV1 (timeoutMsV1 none) ≠ backendErrorMessage "Invalid language" :=
  c9_fetch_timeout.2.2.2.2.2.2.2.2.1 "Invalid language"

/-- C10: a speech response with no format tag yields a clip whose format
defaults to "mp3", and every such untagged clip is routed to the
compressed-audio (mp3) decode branch, never the PCM branch. -/
theorem c10_untagged_format_defaults_mp3 :
    (∀ payloadBytes : List Nat, generateSpeech payloadBytes none =
       ⟨payloadBytes, "mp3"⟩) ∧
    (∀ payloadBytes : List Nat, decodeForPlayback (generateSpeech payloadBytes none) =
       some (.decodedMp3 payloadBytes)) :=
  ⟨fun _ => rfl, fun _ => rfl⟩
